import Mathlib

/-!
Shallow embedding of the loadster load-testing tool (`src/main.rs`).

The program has two parts relevant here:
* `call_api` — the dispatcher: builds one HTTP client, spawns `concurrency`
  threads, each performing one HTTP call and appending a `ResponseDetails`
  sample to a mutex-guarded vector on success; per-call errors only print a
  diagnostic and append nothing.  Joined and the collected vector returned.
* `display_results` / `generate_report` — the aggregator: pure statistics over
  the collected samples.

Modelling conventions:
* Machine integers (`u64`, `usize`, `i32`, `u16` status codes) are `Nat`/`Int`.
  No computation here approaches overflow, and Rust would panic on the only
  subtraction (`total - successful`), which we prove cannot underflow.
* `f64` arithmetic is modelled by exact rationals (`ℚ`).  The two float
  expressions feeding an integer cast — `(len as f64 * 0.95) as usize` and
  `(len as f64 * 0.99) as usize` — truncate a nonnegative value, i.e. take a
  floor; over ℚ this floor is exactly `len * k / 100` in natural division
  (the representation error of the `f64` literals `0.95`/`0.99`/`0.75` is far
  below the distance from `k·n/100` to the nearest other integer at any
  realistic `n`, so the rounded product floors identically).
* An `f64` division whose divisor is zero produces a non-finite value
  (NaN for `0.0/0.0`, ±∞ otherwise), never a rational number; such divisions
  are modelled by `f64Div : ℚ → ℚ → Option ℚ` returning `none` on a zero
  divisor.
* A Rust panic (out-of-bounds `Vec` index) is modelled by `Option`: the
  aggregator functions return `none` exactly when the source would panic.
* Thread interleavings are linearized: the mutex-guarded appends commute up
  to list order, and every property below is order-insensitive, so the
  dispatcher is modelled as a sequential loop over worker indices.  Network
  nondeterminism (client construction, per-call outcome) is an explicit
  environment.
-/

/-- The HTTP methods supported by the CLI (`enum HttpMethod`). -/
inductive HttpMethod
  | get
  | post
  | put
  | delete
  | patch
deriving DecidableEq, Repr

/-- `struct ResponseDetails`: status code, elapsed time in milliseconds,
completion timestamp in seconds since the epoch. -/
structure ResponseDetails where
  status : Nat
  time : Nat
  timestamp : Nat
deriving DecidableEq, Repr

/-- `StatusCode::is_success()` from reqwest: the 2xx range `200 ≤ c < 300`. -/
def statusIsSuccess (s : Nat) : Bool :=
  200 ≤ s && s < 300

/-- `f64` division, with the non-finite result of a zero divisor modelled as
`none` (`0.0/0.0` is NaN, `x/0.0` is ±∞; neither is a number). -/
def f64Div (x y : ℚ) : Option ℚ :=
  if y = 0 then none else some (x / y)

/-- `let total_requests = data.len();` -/
def total_requests (data : List ResponseDetails) : Nat :=
  data.length

/-- `let successful_requests = data.iter().filter(|d| d.status.is_success()).count();` -/
def successful_requests (data : List ResponseDetails) : Nat :=
  (data.filter (fun d => statusIsSuccess d.status)).length

/-- `let failed_requests = total_requests - successful_requests;` -/
def failed_requests (data : List ResponseDetails) : Nat :=
  total_requests data - successful_requests data

/-- `let total_time: u64 = data.iter().map(|d| d.time).sum();` -/
def total_time (data : List ResponseDetails) : Nat :=
  (data.map (fun d => d.time)).sum

/-- `let mut times: Vec<u64> = data.iter().map(|d| d.time).collect(); times.sort_unstable();`
— the latencies in ascending order (on `Nat` every correct sort produces the
same list, so an insertion sort stands in for Rust's pattern-defeating
quicksort). -/
def sorted_times (data : List ResponseDetails) : List Nat :=
  List.insertionSort (· ≤ ·) (data.map (fun d => d.time))

/-- `(times.len() as f64 * (k/100)) as usize` for the percentile constants
`0.95`, `0.99`, `0.75`: the cast truncates a nonnegative float, i.e. floors,
giving `n * k / 100` in natural division (see the modelling note above). -/
def pct_index (k n : Nat) : Nat :=
  n * k / 100

/-- `times[times.len() / 2]` — panics (`none`) when `times` is empty. -/
def median_time (data : List ResponseDetails) : Option Nat :=
  (sorted_times data)[(sorted_times data).length / 2]?

/-- `times[(times.len() as f64 * 0.75) as usize]` — panic as `none`. -/
def p75_time (data : List ResponseDetails) : Option Nat :=
  (sorted_times data)[pct_index 75 (sorted_times data).length]?

/-- `times[(times.len() as f64 * 0.95) as usize]` — panic as `none`. -/
def p95_time (data : List ResponseDetails) : Option Nat :=
  (sorted_times data)[pct_index 95 (sorted_times data).length]?

/-- `times[(times.len() as f64 * 0.99) as usize]` — panic as `none`. -/
def p99_time (data : List ResponseDetails) : Option Nat :=
  (sorted_times data)[pct_index 99 (sorted_times data).length]?

/-- The latencies of the successful (2xx) samples, in sample order:
`data.iter().filter(|d| d.status.is_success()).map(|d| d.time)`. -/
def success_times (data : List ResponseDetails) : List Nat :=
  (data.filter (fun d => statusIsSuccess d.status)).map (fun d => d.time)

/-- `... .min().unwrap_or(0)` over the successful samples' times. -/
def min_success_time (data : List ResponseDetails) : Nat :=
  (success_times data).min?.getD 0

/-- `... .max().unwrap_or(0)` over the successful samples' times. -/
def max_success_time (data : List ResponseDetails) : Nat :=
  (success_times data).max?.getD 0

/-- `let avg_success_time: f64 = (sum of successful times) as f64 / successful_requests as f64;`
— with no successful sample this is `0.0 / 0.0 = NaN`, modelled `none`. -/
def avg_success_time (data : List ResponseDetails) : Option ℚ :=
  f64Div ((success_times data).sum : ℚ) (successful_requests data : ℚ)

/-- Everything `generate_report` computes and prints. -/
structure Report where
  total_requests : Nat
  successful_requests : Nat
  failed_requests : Nat
  total_time : Nat
  avg_time : ℚ
  median_time : Nat
  p75_time : Nat
  p95_time : Nat
  p99_time : Nat
  max_time : Nat
  duration_seconds : ℚ
  throughput : Option ℚ
  min_success_time : Nat
  max_success_time : Nat
  avg_success_time : Option ℚ
deriving DecidableEq, Repr

/-- `fn generate_report(data: &[ResponseDetails], url: &str)`: the statistics
it computes and prints.  The percentile lookups index the sorted vector
directly; on an out-of-bounds index (which happens exactly for empty `data`)
the source panics, modelled as `none`.  `avg_time` is only reachable in the
`some` branch, where `total_requests ≥ 1`, so its division is safe;
`throughput = total_requests / (total_time/1000)` can still divide by zero
(all-zero latencies), hence `f64Div`. -/
def generate_report (data : List ResponseDetails) : Option Report :=
  match median_time data, p75_time data, p95_time data, p99_time data with
  | some med, some p75, some p95, some p99 =>
      some
        { total_requests := total_requests data
          successful_requests := successful_requests data
          failed_requests := failed_requests data
          total_time := total_time data
          avg_time := (total_time data : ℚ) / (total_requests data : ℚ)
          median_time := med
          p75_time := p75
          p95_time := p95
          p99_time := p99
          max_time := (sorted_times data).getLast?.getD 0
          duration_seconds := (total_time data : ℚ) / 1000
          throughput := f64Div (total_requests data : ℚ) ((total_time data : ℚ) / 1000)
          min_success_time := min_success_time data
          max_success_time := max_success_time data
          avg_success_time := avg_success_time data }
  | _, _, _, _ => none

/-- `header.splitn(2, ':')` with `parts.len() == 2`: a header string is kept
exactly when it contains a colon, split at the first one; malformed entries
(no colon) yield `none` and are skipped. -/
def parse_header (h : String) : Option (String × String) :=
  match h.splitOn ":" with
  | [] => none
  | [_] => none
  | p :: rest => some (p, String.intercalate ":" rest)

/-- The request each worker thread builds before `send()`. -/
structure BuiltRequest where
  method : HttpMethod
  url : String
  headers : List (String × String)
  body : Option String
deriving DecidableEq, Repr

/-- The request-construction part of the worker closure in `call_api`:
`client.request(method, url).header(USER_AGENT, "loadster 1.0.0")`, then every
well-formed `"Name: Value"` header in order, then
`if let Some(body) = body { request = request.body(body.clone()); }` —
the body is attached whenever present, with no test on the method. -/
def build_request (url : String) (method : HttpMethod) (headers : List String)
    (body : Option String) : BuiltRequest :=
  { method := method
    url := url
    headers := ("User-Agent", "loadster 1.0.0") :: headers.filterMap parse_header
    body := body }

/-- The nondeterministic environment a dispatch runs in:
`clientBuild` is the outcome of `Client::builder().timeout(..).build()?`
(the only fallible step before the workers), and `outcome i` is what worker
`i`'s `request.send()` returns — `some` a sample's raw data when a response
arrives (any status code), `none` on a network error. -/
structure DispatchEnv where
  clientBuild : Except String Unit
  outcome : Nat → Option ResponseDetails

/-- `fn call_api(url, method, concurrency: i32, ...) -> Result<Vec<ResponseDetails>, _>`,
linearized (see the modelling note): build the client (propagating its error
with `?`), run `for i in 0..concurrency` — empty when `concurrency ≤ 0`, since
`0..c` over `i32` is empty for `c ≤ 0`, hence `Int.toNat` — and for each worker
either push one sample (response received) or push nothing (network error,
diagnostic only); join all and return the collected vector. -/
def call_api (concurrency : Int) (env : DispatchEnv) :
    Except String (List ResponseDetails) :=
  match env.clientBuild with
  | Except.error e => Except.error e
  | Except.ok _ => Except.ok ((List.range concurrency.toNat).filterMap env.outcome)

/-- Everything `display_results` computes and prints. -/
structure DisplayStats where
  total_requests : Nat
  successful_requests : Nat
  failed_requests : Nat
  total_time : Nat
  avg_time : ℚ
  median_time : Nat
  min_time : Nat
  max_time : Nat
deriving DecidableEq, Repr

/-- `fn display_results(data: &[ResponseDetails])`: `times[times.len()/2]`
panics on empty input (`none`); `min`/`max` use `unwrap_or(&0)`. -/
def display_results (data : List ResponseDetails) : Option DisplayStats :=
  match median_time data with
  | some med =>
      some
        { total_requests := total_requests data
          successful_requests := successful_requests data
          failed_requests := failed_requests data
          total_time := total_time data
          avg_time := (total_time data : ℚ) / (total_requests data : ℚ)
          median_time := med
          min_time := (sorted_times data).head?.getD 0
          max_time := (sorted_times data).getLast?.getD 0 }
  | none => none

/-! ### Spec-side definitions

These two definitions follow the claims' wording (not the source); each claim
compares them with the embedded source functions above. -/

/-- Claim-side percentile: sort a copy of the latencies ascending and index at
`⌊k/100 · n⌋` clamped to `[0, n-1]` (the lower clamp is vacuous over `ℕ`). -/
def spec_percentile (k : Nat) (data : List ResponseDetails) : Nat :=
  (List.insertionSort (· ≤ ·) (data.map (fun d => d.time))).getD
    (min (Nat.floor ((k : ℚ) / 100 * (data.length : ℚ))) (data.length - 1)) 0

/-- Claim-side notion of an HTTP method that semantically carries a request
body: POST, PUT and PATCH do; GET and DELETE do not. -/
def method_carries_body : HttpMethod → Bool
  | HttpMethod.post => true
  | HttpMethod.put => true
  | HttpMethod.patch => true
  | HttpMethod.get => false
  | HttpMethod.delete => false

/-! ### Helper lemmas -/

lemma length_sorted_times (data : List ResponseDetails) :
    (sorted_times data).length = data.length := by
  unfold sorted_times
  rw [(List.perm_insertionSort _ _).length_eq, List.length_map]

lemma sorted_times_sorted (data : List ResponseDetails) :
    List.Sorted (· ≤ ·) (sorted_times data) :=
  List.sorted_insertionSort _ _

lemma sorted_times_perm (data : List ResponseDetails) :
    List.Perm (sorted_times data) (data.map (fun d => d.time)) :=
  List.perm_insertionSort _ _

lemma pct_index_lt (k n : Nat) (hk : k < 100) (hn : 0 < n) :
    pct_index k n < n := by
  unfold pct_index
  rw [Nat.div_lt_iff_lt_mul (by norm_num)]
  exact mul_lt_mul_of_pos_left hk hn

lemma getElem?_sorted_times (data : List ResponseDetails) (i : Nat)
    (h : i < data.length) :
    (sorted_times data)[i]? = some ((sorted_times data).getD i 0) := by
  have hl : i < (sorted_times data).length := by
    rw [length_sorted_times]; exact h
  rw [List.getElem?_eq_getElem hl, List.getD_eq_getElem _ 0 hl]

lemma median_time_of_ne_nil (data : List ResponseDetails) (h : data ≠ []) :
    median_time data = some ((sorted_times data).getD (data.length / 2) 0) := by
  have hn : 0 < data.length := List.length_pos.mpr h
  unfold median_time
  rw [length_sorted_times]
  exact getElem?_sorted_times data _ (Nat.div_lt_self hn (by norm_num))

lemma p75_time_of_ne_nil (data : List ResponseDetails) (h : data ≠ []) :
    p75_time data = some ((sorted_times data).getD (pct_index 75 data.length) 0) := by
  have hn : 0 < data.length := List.length_pos.mpr h
  unfold p75_time
  rw [length_sorted_times]
  exact getElem?_sorted_times data _ (pct_index_lt 75 _ (by norm_num) hn)

lemma p95_time_of_ne_nil (data : List ResponseDetails) (h : data ≠ []) :
    p95_time data = some ((sorted_times data).getD (pct_index 95 data.length) 0) := by
  have hn : 0 < data.length := List.length_pos.mpr h
  unfold p95_time
  rw [length_sorted_times]
  exact getElem?_sorted_times data _ (pct_index_lt 95 _ (by norm_num) hn)

lemma p99_time_of_ne_nil (data : List ResponseDetails) (h : data ≠ []) :
    p99_time data = some ((sorted_times data).getD (pct_index 99 data.length) 0) := by
  have hn : 0 < data.length := List.length_pos.mpr h
  unfold p99_time
  rw [length_sorted_times]
  exact getElem?_sorted_times data _ (pct_index_lt 99 _ (by norm_num) hn)

/-- The closed form `generate_report` takes on nonempty input (proved in
`generate_report_of_ne_nil`). -/
def reportOf (data : List ResponseDetails) : Report :=
  { total_requests := total_requests data
    successful_requests := successful_requests data
    failed_requests := failed_requests data
    total_time := total_time data
    avg_time := (total_time data : ℚ) / (total_requests data : ℚ)
    median_time := (sorted_times data).getD (data.length / 2) 0
    p75_time := (sorted_times data).getD (pct_index 75 data.length) 0
    p95_time := (sorted_times data).getD (pct_index 95 data.length) 0
    p99_time := (sorted_times data).getD (pct_index 99 data.length) 0
    max_time := (sorted_times data).getLast?.getD 0
    duration_seconds := (total_time data : ℚ) / 1000
    throughput := f64Div (total_requests data : ℚ) ((total_time data : ℚ) / 1000)
    min_success_time := min_success_time data
    max_success_time := max_success_time data
    avg_success_time := avg_success_time data }

lemma generate_report_of_ne_nil (data : List ResponseDetails) (h : data ≠ []) :
    generate_report data = some (reportOf data) := by
  unfold generate_report
  rw [median_time_of_ne_nil data h, p75_time_of_ne_nil data h,
    p95_time_of_ne_nil data h, p99_time_of_ne_nil data h]
  rfl

lemma generate_report_some_ne_nil {data : List ResponseDetails} {r : Report}
    (h : generate_report data = some r) : data ≠ [] := by
  intro hnil
  subst hnil
  simp [generate_report, median_time, sorted_times] at h

lemma generate_report_some_eq {data : List ResponseDetails} {r : Report}
    (h : generate_report data = some r) : r = reportOf data := by
  have hne := generate_report_some_ne_nil h
  rw [generate_report_of_ne_nil data hne] at h
  exact (Option.some_inj.mp h).symm

lemma spec_index_eq (k n : Nat) (hk : k ≤ 99) (hn : 0 < n) :
    min (Nat.floor ((k : ℚ) / 100 * (n : ℚ))) (n - 1) = n * k / 100 := by
  have hf : Nat.floor ((k : ℚ) / 100 * (n : ℚ)) = k * n / 100 := by
    have hcast : (k : ℚ) / 100 * (n : ℚ) = ((k * n : ℕ) : ℚ) / ((100 : ℕ) : ℚ) := by
      push_cast; ring
    rw [hcast, Nat.floor_div_nat, Nat.floor_natCast]
  have hlt : n * k / 100 < n := pct_index_lt k n (by omega) hn
  unfold pct_index at hlt
  rw [hf, mul_comm k n]
  exact min_eq_left (by omega)

lemma filter_success_eq (data : List ResponseDetails) :
    data.filter (fun d => statusIsSuccess d.status) =
      data.filter (fun d => d.status / 100 = 2) := by
  apply List.filter_congr
  intro d _
  unfold statusIsSuccess
  rw [Bool.eq_iff_iff]
  simp only [Bool.and_eq_true, decide_eq_true_eq]
  omega

lemma length_filterMap_of_isSome {α β : Type} (f : α → Option β) :
    ∀ l : List α, (∀ a ∈ l, (f a).isSome) → (l.filterMap f).length = l.length := by
  intro l
  induction l with
  | nil => intro _; rfl
  | cons a l ih =>
      intro h
      obtain ⟨b, hb⟩ := Option.isSome_iff_exists.mp (h a (List.mem_cons_self a l))
      rw [List.filterMap_cons, hb, List.length_cons, List.length_cons,
        ih (fun x hx => h x (List.mem_cons_of_mem a hx))]

/-! ### Claims -/

/-- C1: for every non-empty sample sequence and every k ∈ {50,75,95,99}, the
percentile latency in the generated report equals the element obtained by
sorting the latencies ascending and indexing at ⌊k/100 · n⌋ clamped to
`[0, n-1]`. -/
theorem C1_percentile_formula (data : List ResponseDetails) (h : data ≠ []) :
    ∃ r, generate_report data = some r ∧
      r.median_time = spec_percentile 50 data ∧
      r.p75_time = spec_percentile 75 data ∧
      r.p95_time = spec_percentile 95 data ∧
      r.p99_time = spec_percentile 99 data := by
  have hn : 0 < data.length := List.length_pos.mpr h
  refine ⟨reportOf data, generate_report_of_ne_nil data h, ?_, ?_, ?_, ?_⟩
  · show (sorted_times data).getD (data.length / 2) 0 = spec_percentile 50 data
    unfold spec_percentile
    rw [spec_index_eq 50 data.length (by norm_num) hn]
    have : data.length * 50 / 100 = data.length / 2 := by omega
    rw [this]
    rfl
  · show (sorted_times data).getD (pct_index 75 data.length) 0 =
      spec_percentile 75 data
    unfold spec_percentile
    rw [spec_index_eq 75 data.length (by norm_num) hn]
    rfl
  · show (sorted_times data).getD (pct_index 95 data.length) 0 =
      spec_percentile 95 data
    unfold spec_percentile
    rw [spec_index_eq 95 data.length (by norm_num) hn]
    rfl
  · show (sorted_times data).getD (pct_index 99 data.length) 0 =
      spec_percentile 99 data
    unfold spec_percentile
    rw [spec_index_eq 99 data.length (by norm_num) hn]
    rfl

/-- Witness for C1 at the concrete two-sample run
`[{status 200, 5 ms}, {status 200, 9 ms}]`. -/
theorem C1_percentile_formula_witness :
    ∃ r, generate_report [⟨200, 9, 0⟩, ⟨200, 5, 0⟩] = some r ∧
      r.median_time = spec_percentile 50 [⟨200, 9, 0⟩, ⟨200, 5, 0⟩] ∧
      r.p75_time = spec_percentile 75 [⟨200, 9, 0⟩, ⟨200, 5, 0⟩] ∧
      r.p95_time = spec_percentile 95 [⟨200, 9, 0⟩, ⟨200, 5, 0⟩] ∧
      r.p99_time = spec_percentile 99 [⟨200, 9, 0⟩, ⟨200, 5, 0⟩] :=
  C1_percentile_formula [⟨200, 9, 0⟩, ⟨200, 5, 0⟩] (by simp)

/-- C2: at the empty sample sequence the aggregation faults instead of
reporting zero statistics: both `generate_report` and `display_results`
index position 0 of the empty sorted vector (`times[times.len() / 2]`),
a panic, modelled as `none`. -/
theorem C2_empty_input_faults :
    generate_report [] = none ∧ display_results [] = none :=
  ⟨rfl, rfl⟩

/-- C3: the dispatch call fails exactly on a client-construction error, which
it propagates verbatim; with a constructed client it returns `Ok` with the
samples of precisely the workers whose call succeeded — per-call errors are
absorbed (no sample appended, no effect on the other workers). -/
theorem C3_error_propagation (c : Int) (env : DispatchEnv) :
    (∀ e, env.clientBuild = Except.error e → call_api c env = Except.error e) ∧
    (env.clientBuild = Except.ok () → call_api c env =
        Except.ok ((List.range c.toNat).filterMap env.outcome)) := by
  constructor
  · intro e he
    unfold call_api
    rw [he]
  · intro hok
    unfold call_api
    rw [hok]

/-- Witness for C3: a failing build propagates the error; a successful build
with one failing worker out of two yields the single surviving sample. -/
theorem C3_error_propagation_witness :
    call_api 2 ⟨Except.error "client build failed", fun _ => none⟩ =
      Except.error "client build failed" ∧
    call_api 2 ⟨Except.ok (), fun i => if i = 0 then some ⟨200, 3, 0⟩ else none⟩ =
      Except.ok ((List.range 2).filterMap
        (fun i => if i = 0 then some ⟨200, 3, 0⟩ else none)) :=
  ⟨(C3_error_propagation 2 _).1 "client build failed" rfl,
   (C3_error_propagation 2 _).2 rfl⟩

/-- C4: the aggregator computes `total` as the number of samples,
`successful` as the count of samples whose status is in the 2xx range, and
`failed = total - successful`; hence `successful + failed = total`, also for
the fields of every generated report. -/
theorem C4_count_identities (data : List ResponseDetails) :
    total_requests data = data.length ∧
    successful_requests data =
      (data.filter (fun d => d.status / 100 = 2)).length ∧
    failed_requests data = total_requests data - successful_requests data ∧
    successful_requests data + failed_requests data = total_requests data ∧
    (∀ r, generate_report data = some r →
      r.successful_requests + r.failed_requests = r.total_requests) := by
  have hle : successful_requests data ≤ total_requests data :=
    List.length_filter_le _ _
  have hsum : successful_requests data + failed_requests data =
      total_requests data := by
    unfold failed_requests
    omega
  refine ⟨rfl, ?_, rfl, hsum, ?_⟩
  · unfold successful_requests
    rw [filter_success_eq]
  · intro r hr
    rw [generate_report_some_eq hr]
    exact hsum

/-- Witness for C4 at a run with one 200 and one 500 sample. -/
theorem C4_count_identities_witness :
    (reportOf [⟨200, 10, 0⟩, ⟨500, 20, 0⟩]).successful_requests +
      (reportOf [⟨200, 10, 0⟩, ⟨500, 20, 0⟩]).failed_requests =
      (reportOf [⟨200, 10, 0⟩, ⟨500, 20, 0⟩]).total_requests :=
  (C4_count_identities [⟨200, 10, 0⟩, ⟨500, 20, 0⟩]).2.2.2.2
    (reportOf [⟨200, 10, 0⟩, ⟨500, 20, 0⟩]) (by rfl)

/-- C5: for every non-empty sample sequence the reported throughput is the
number of samples divided by the sum of the individual latencies converted to
seconds (not by any wall-clock duration, which the report never measures). -/
theorem C5_throughput_formula (data : List ResponseDetails) (h : data ≠ []) :
    ∃ r, generate_report data = some r ∧
      r.throughput = f64Div (data.length : ℚ)
        ((((data.map (fun d => d.time)).sum : ℕ) : ℚ) / 1000) :=
  ⟨reportOf data, generate_report_of_ne_nil data h, rfl⟩

/-- Witness for C5 at a single 10 ms sample: 1 request / 0.01 s = 100 req/s. -/
theorem C5_throughput_formula_witness :
    (∃ r, generate_report [⟨200, 10, 0⟩] = some r ∧
      r.throughput = f64Div ((1 : ℚ)) (((10 : ℚ)) / 1000)) ∧
    f64Div ((1 : ℚ)) (((10 : ℚ)) / 1000) = some 100 := by
  constructor
  · have := C5_throughput_formula [⟨200, 10, 0⟩] (by simp)
    simpa using this
  · simp [f64Div]
    norm_num

/-- Claim-side for C6: the latencies of the samples whose status is in the
2xx range. -/
def success_latencies (data : List ResponseDetails) : List Nat :=
  (data.filter (fun d => d.status / 100 = 2)).map (fun d => d.time)

lemma success_times_eq (data : List ResponseDetails) :
    success_times data = success_latencies data := by
  unfold success_times success_latencies
  rw [filter_success_eq]

lemma successful_requests_eq_length (data : List ResponseDetails) :
    successful_requests data = (success_latencies data).length := by
  unfold successful_requests success_latencies
  rw [filter_success_eq, List.length_map]

/-- C6 counterexample: a run whose only sample has status 500 has no
successful sample; min and max then default to 0, but the average of the
successful latencies is `0.0 / 0.0 = NaN` (modelled `none`) — it is not zero,
so the claim's "each of the three defaults to zero" is false. -/
theorem C6_counterexample :
    statusIsSuccess 500 = false ∧
    successful_requests [⟨500, 7, 0⟩] = 0 ∧
    min_success_time [⟨500, 7, 0⟩] = 0 ∧
    max_success_time [⟨500, 7, 0⟩] = 0 ∧
    avg_success_time [⟨500, 7, 0⟩] = none ∧
    avg_success_time [⟨500, 7, 0⟩] ≠ some 0 := by
  refine ⟨rfl, rfl, rfl, rfl, rfl, ?_⟩
  intro hcon
  simp [avg_success_time, f64Div, successful_requests, success_times,
    statusIsSuccess] at hcon

/-- C6 amended: min, max and average latency over the successful (2xx)
samples are computed over exactly those samples; with no successful sample,
min and max default to zero while the average is undefined (NaN, modelled
`none`) rather than zero. -/
theorem C6_success_stats (data : List ResponseDetails) :
    (success_latencies data = [] →
      min_success_time data = 0 ∧ max_success_time data = 0 ∧
      avg_success_time data = none) ∧
    (success_latencies data ≠ [] →
      min_success_time data ∈ success_latencies data ∧
      (∀ x ∈ success_latencies data, min_success_time data ≤ x) ∧
      max_success_time data ∈ success_latencies data ∧
      (∀ x ∈ success_latencies data, x ≤ max_success_time data) ∧
      avg_success_time data =
        some (((success_latencies data).sum : ℚ) /
          ((success_latencies data).length : ℚ))) := by
  constructor
  · intro hnil
    have hs : success_times data = [] := by rw [success_times_eq, hnil]
    refine ⟨?_, ?_, ?_⟩
    · unfold min_success_time
      rw [hs]
      rfl
    · unfold max_success_time
      rw [hs]
      rfl
    · unfold avg_success_time f64Div
      rw [hs]
      have h0 : successful_requests data = 0 := by
        rw [successful_requests_eq_length, hnil]
        rfl
      rw [h0]
      norm_num
  · intro hne
    have hs := success_times_eq data
    have hlen : successful_requests data = (success_latencies data).length :=
      successful_requests_eq_length data
    have hpos : (success_latencies data).length ≠ 0 := by
      intro h0
      exact hne (List.length_eq_zero.mp h0)
    obtain ⟨m, hm⟩ : ∃ m, (success_latencies data).min? = some m := by
      cases hsl : success_latencies data with
      | nil => exact absurd hsl hne
      | cons x xs => exact ⟨_, List.min?_cons⟩
    obtain ⟨M, hM⟩ : ∃ M, (success_latencies data).max? = some M := by
      cases hsl : success_latencies data with
      | nil => exact absurd hsl hne
      | cons x xs => exact ⟨_, List.max?_cons⟩
    have hmmem : m ∈ success_latencies data :=
      List.min?_mem (fun x y => min_choice x y) hm
    have hMmem : M ∈ success_latencies data :=
      List.max?_mem (fun x y => max_choice x y) hM
    have hmin_eq : min_success_time data = m := by
      unfold min_success_time
      rw [hs, hm]
      rfl
    have hmax_eq : max_success_time data = M := by
      unfold max_success_time
      rw [hs, hM]
      rfl
    have hmle : ∀ x ∈ success_latencies data, m ≤ x := by
      rw [List.min?_eq_some_iff] at hm
      · exact hm.2
      · exact fun x => Nat.le_refl x
      · exact fun x y => min_choice x y
      · exact fun x y c => le_min_iff
    have hMge : ∀ x ∈ success_latencies data, x ≤ M := by
      rw [List.max?_eq_some_iff] at hM
      · exact hM.2
      · exact fun x => Nat.le_refl x
      · exact fun x y => max_choice x y
      · exact fun x y c => max_le_iff
    refine ⟨hmin_eq ▸ hmmem, fun x hx => hmin_eq ▸ hmle x hx,
      hmax_eq ▸ hMmem, fun x hx => hmax_eq ▸ hMge x hx, ?_⟩
    unfold avg_success_time f64Div
    rw [hs, hlen]
    have : ((success_latencies data).length : ℚ) ≠ 0 := by
      exact_mod_cast hpos
    simp [this]

/-- Witness for C6's amended statement at a run with one 200/12 ms sample and
one 500/4 ms sample: the successful-sample statistics come from the single
200 sample. -/
theorem C6_success_stats_witness :
    min_success_time [⟨200, 12, 0⟩, ⟨500, 4, 0⟩] ∈
      success_latencies [⟨200, 12, 0⟩, ⟨500, 4, 0⟩] ∧
    avg_success_time [⟨200, 12, 0⟩, ⟨500, 4, 0⟩] =
      some (((success_latencies [⟨200, 12, 0⟩, ⟨500, 4, 0⟩]).sum : ℚ) /
        ((success_latencies [⟨200, 12, 0⟩, ⟨500, 4, 0⟩]).length : ℚ)) := by
  have h := (C6_success_stats [⟨200, 12, 0⟩, ⟨500, 4, 0⟩]).2 (by
    simp [success_latencies])
  exact ⟨h.1, h.2.2.2.2⟩

/-- C7 counterexample: GET does not semantically carry a body, yet the worker
attaches a present body to a GET request all the same — the attachment is
unconditional on the method. -/
theorem C7_counterexample :
    method_carries_body HttpMethod.get = false ∧
    (build_request "http://example.test" HttpMethod.get [] (some "x")).body =
      some "x" :=
  ⟨rfl, rfl⟩

/-- C7 amended: the worker attaches `spec.body` to the outgoing request
exactly when the body is present, for every method — the source tests only
presence, never the method. -/
theorem C7_body_attached_iff_present (url : String) (method : HttpMethod)
    (headers : List String) (body : Option String) :
    (build_request url method headers body).body = body ∧
    ((build_request url method headers body).body ≠ none ↔ body ≠ none) :=
  ⟨rfl, Iff.rfl⟩

/-- C8: with a constructed client, nonnegative concurrency `C` and every
call succeeding, the dispatch spawns exactly `C` workers and returns exactly
`C` samples — none lost, none duplicated. -/
theorem C8_all_success_yields_C (c : Int) (env : DispatchEnv) (hc : 0 ≤ c)
    (hok : env.clientBuild = Except.ok ())
    (hall : ∀ i, (env.outcome i).isSome) :
    ((List.range c.toNat).length : Int) = c ∧
    ∃ l, call_api c env = Except.ok l ∧ (l.length : Int) = c := by
  have hlen : (List.range c.toNat).length = c.toNat := List.length_range _
  have hfm : ((List.range c.toNat).filterMap env.outcome).length = c.toNat := by
    rw [length_filterMap_of_isSome env.outcome _ (fun a _ => hall a), hlen]
  refine ⟨?_, ⟨(List.range c.toNat).filterMap env.outcome, ?_, ?_⟩⟩
  · rw [hlen]
    exact Int.toNat_of_nonneg hc
  · unfold call_api
    rw [hok]
  · rw [hfm]
    exact Int.toNat_of_nonneg hc

/-- Witness for C8 at concurrency 3 with an always-200 endpoint. -/
theorem C8_all_success_yields_C_witness :
    ((List.range (3 : Int).toNat).length : Int) = 3 ∧
    ∃ l, call_api 3 ⟨Except.ok (), fun i => some ⟨200, i, 0⟩⟩ = Except.ok l ∧
      (l.length : Int) = 3 :=
  C8_all_success_yields_C 3 ⟨Except.ok (), fun i => some ⟨200, i, 0⟩⟩
    (by norm_num) rfl (fun i => rfl)

/-- C9: for concurrency ≤ 0 (`i32`), the loop `for i in 0..concurrency` runs
zero iterations, so no worker is spawned and, whenever the client was
constructed, the dispatch returns `Ok` with the empty sample sequence. -/
theorem C9_nonpositive_concurrency (c : Int) (env : DispatchEnv) (hc : c ≤ 0)
    (hok : env.clientBuild = Except.ok ()) :
    List.range c.toNat = [] ∧ call_api c env = Except.ok [] := by
  have h0 : c.toNat = 0 := Int.toNat_of_nonpos hc
  constructor
  · rw [h0]
    rfl
  · unfold call_api
    rw [hok, h0]
    rfl

/-- Witness for C9 at concurrency −2. -/
theorem C9_nonpositive_concurrency_witness :
    List.range (-2 : Int).toNat = [] ∧
    call_api (-2) ⟨Except.ok (), fun i => some ⟨200, i, 0⟩⟩ = Except.ok [] :=
  C9_nonpositive_concurrency (-2) ⟨Except.ok (), fun i => some ⟨200, i, 0⟩⟩
    (by norm_num) rfl

lemma sorted_times_getD_last_mem (data : List ResponseDetails) (h : data ≠ []) :
    (sorted_times data).getD (data.length - 1) 0 ∈ data.map (fun d => d.time) := by
  have hn : 0 < data.length := List.length_pos.mpr h
  have hlt : data.length - 1 < (sorted_times data).length := by
    rw [length_sorted_times]
    omega
  rw [List.getD_eq_getElem _ 0 hlt]
  exact (sorted_times_perm data).mem_iff.mp (List.getElem_mem hlt)

lemma sorted_times_getD_last_ub (data : List ResponseDetails) (h : data ≠ [])
    (x : Nat) (hx : x ∈ data.map (fun d => d.time)) :
    x ≤ (sorted_times data).getD (data.length - 1) 0 := by
  have hn : 0 < data.length := List.length_pos.mpr h
  have hlt : data.length - 1 < (sorted_times data).length := by
    rw [length_sorted_times]
    omega
  rw [List.getD_eq_getElem _ 0 hlt]
  have hx' : x ∈ sorted_times data := (sorted_times_perm data).mem_iff.mpr hx
  obtain ⟨i, hi⟩ := List.mem_iff_get.mp hx'
  have hle : i ≤ (⟨data.length - 1, hlt⟩ : Fin (sorted_times data).length) := by
    rw [Fin.le_def]
    show (i : Nat) ≤ data.length - 1
    have h3 : (i : Nat) < (sorted_times data).length := i.isLt
    have h4 : (sorted_times data).length = data.length := length_sorted_times data
    omega
  calc x = (sorted_times data).get i := hi.symm
    _ ≤ (sorted_times data).get ⟨data.length - 1, hlt⟩ :=
        List.Sorted.rel_get_of_le (sorted_times_sorted data) hle
    _ = (sorted_times data)[data.length - 1] := rfl

lemma getD_last_eq_getLast (data : List ResponseDetails) :
    (sorted_times data).getD (data.length - 1) 0 =
      (sorted_times data).getLast?.getD 0 := by
  rw [List.getD_eq_getElem?_getD, List.getLast?_eq_getElem?, length_sorted_times]

/-- C10: for every non-empty sample sequence of at most 100 samples, the P99
index `⌊0.99 · n⌋` equals `n - 1`, so the reported P99 latency coincides with
the reported maximum and is the greatest of the latencies. -/
theorem C10_p99_is_max (data : List ResponseDetails) (h1 : 1 ≤ data.length)
    (h100 : data.length ≤ 100) :
    pct_index 99 data.length = data.length - 1 ∧
    ∃ r, generate_report data = some r ∧
      r.p99_time = r.max_time ∧
      r.p99_time ∈ data.map (fun d => d.time) ∧
      ∀ x ∈ data.map (fun d => d.time), x ≤ r.p99_time := by
  have h : data ≠ [] := by
    intro hnil
    rw [hnil] at h1
    simp at h1
  have hidx : pct_index 99 data.length = data.length - 1 := by
    unfold pct_index
    omega
  refine ⟨hidx, reportOf data, generate_report_of_ne_nil data h, ?_, ?_, ?_⟩
  · show (sorted_times data).getD (pct_index 99 data.length) 0 =
      (sorted_times data).getLast?.getD 0
    rw [hidx, getD_last_eq_getLast]
  · show (sorted_times data).getD (pct_index 99 data.length) 0 ∈
      data.map (fun d => d.time)
    rw [hidx]
    exact sorted_times_getD_last_mem data h
  · intro x hx
    show x ≤ (sorted_times data).getD (pct_index 99 data.length) 0
    rw [hidx]
    exact sorted_times_getD_last_ub data h x hx

/-- Witness for C10 at a three-sample run with latencies 7, 2, 11 ms. -/
theorem C10_p99_is_max_witness :
    pct_index 99 (3 : Nat) = 2 ∧
    ∃ r, generate_report [⟨200, 7, 0⟩, ⟨200, 2, 0⟩, ⟨200, 11, 0⟩] = some r ∧
      r.p99_time = r.max_time ∧
      r.p99_time ∈ [⟨200, 7, 0⟩, ⟨200, 2, 0⟩, ⟨200, 11, 0⟩].map
        (fun d : ResponseDetails => d.time) ∧
      ∀ x ∈ [⟨200, 7, 0⟩, ⟨200, 2, 0⟩, ⟨200, 11, 0⟩].map
        (fun d : ResponseDetails => d.time), x ≤ r.p99_time := by
  have h := C10_p99_is_max [⟨200, 7, 0⟩, ⟨200, 2, 0⟩, ⟨200, 11, 0⟩]
    (by simp) (by simp)
  simpa using h
